import Mathlib

/-!
Verification of the parse-context stack core of `cxxheaderparser`
(`src/cxxheaderparser/parserstate.py`): the `ParsedTypeModifiers`
classification record with its `validate` check, and the scope-state
hierarchy (`State`, `ExternBlockState`, `NamespaceBlockState`,
`ClassBlockState`) with their close hooks.

Python dictionaries preserve insertion order, so the three keyword
mappings are embedded as insertion-ordered association lists.  A raised
`CxxParseError` is embedded as the `Except.error` branch of an
`Except CxxParseError Unit` result.  Methods on the (immutable)
`ParsedTypeModifiers` named tuple are embedded in state-passing style:
the method returns its result together with the receiver, so that
non-mutation is a statable theorem rather than an implicit convention.
-/

/-- Modelled from the spec: the `Location` type from the lexer module (not
under `src/`); the spec only requires an opaque source-position value
carried by tokens and scope states. -/
structure Location where
  filename : String
  lineno : Nat
deriving DecidableEq

/-- Modelled from the spec: token objects from the lexer module (not under
`src/`) carry at minimum a literal spelling (`value`) and a source
location. -/
structure LexToken where
  value : String
  location : Location
deriving DecidableEq

/-- Modelled from the spec: the namespace declaration record from the types
module (not under `src/`); an opaque namespace-path value. -/
structure NamespaceDecl where
  names : List String
deriving DecidableEq

/-- Modelled from the spec: the class declaration record from the types
module (not under `src/`); an opaque in-progress class declaration. -/
structure ClassDecl where
  typename : String
deriving DecidableEq

/-- Modelled from the spec: `CxxParseError` from the errors module (not
under `src/`): a single structured error carrying a human-readable
message. -/
structure CxxParseError where
  msg : String
deriving DecidableEq

/-- `ParsedTypeModifiers` (parserstate.py): a tri-partitioned record of
modifier keywords seen on the current declaration, each mapping keyed by
the keyword spelling and carrying the originating token.  The Python
`typing.Dict` fields become insertion-ordered association lists. -/
structure ParsedTypeModifiers where
  vars : List (String × LexToken)
  both : List (String × LexToken)
  meths : List (String × LexToken)
deriving DecidableEq

/-- The message built at each raise site of `validate`:
`f"{msg}: unexpected '{tok.value}'"`. -/
def errMsg (msg : String) (tok : LexToken) : String :=
  msg ++ ": unexpected \x27" ++ tok.value ++ "\x27"

/-- `ParsedTypeModifiers.validate` (parserstate.py lines 16-28), in
state-passing style.  The source checks, in order:
`if not var_ok and self.vars`, `if not meth_ok and self.meths`,
`if not meth_ok and not var_ok and self.both`; each violated check raises
`CxxParseError` on the first token produced by iterating the mapping, i.e.
the head of the association list.  Every path returns the receiver
unchanged: the method body never assigns to `self` (a `NamedTuple`). -/
def ParsedTypeModifiers.validate (self : ParsedTypeModifiers)
    (var_ok meth_ok : Bool) (msg : String) :
    Except CxxParseError Unit × ParsedTypeModifiers :=
  match var_ok, self.vars with
  | false, (_, tok) :: _ => (Except.error ⟨errMsg msg tok⟩, self)
  | _, _ =>
    match meth_ok, self.meths with
    | false, (_, tok) :: _ => (Except.error ⟨errMsg msg tok⟩, self)
    | _, _ =>
      match meth_ok, var_ok, self.both with
      | false, false, (_, tok) :: _ => (Except.error ⟨errMsg msg tok⟩, self)
      | _, _, _ => (Except.ok (), self)

example :
    (ParsedTypeModifiers.mk [("mutable", ⟨"mutable", ⟨"f.h", 3⟩⟩)] [] []).validate
      false true "ctx" =
    (Except.error ⟨"ctx: unexpected \x27mutable\x27"⟩,
      ⟨[("mutable", ⟨"mutable", ⟨"f.h", 3⟩⟩)], [], []⟩) := rfl

example :
    (ParsedTypeModifiers.mk [("mutable", ⟨"mutable", ⟨"f.h", 3⟩⟩)] [] []).validate
      true true "ctx" =
    (Except.ok (), ⟨[("mutable", ⟨"mutable", ⟨"f.h", 3⟩⟩)], [], []⟩) := rfl

/-- The variant-specific payload of a scope state.  The source's class
hierarchy (`State` base, `ExternBlockState`, `NamespaceBlockState`,
`ClassBlockState`) is a closed set of variants, embedded as a tagged
union; `base` is a `State` constructed directly (no subclass payload). -/
inductive StateData where
  | base
  | externBlock (linkage : String)
  | namespaceBlock (ns : NamespaceDecl)
  | classBlock (class_decl : ClassDecl) (access : String) (typedef : Bool)
      (mods : ParsedTypeModifiers)

/-- A scope state: the possibly-absent parent stored by `State.__init__`
plus the variant payload.  The uninitialized `user_data`, `location` and
`_prior_visitor` attributes (set later by external code, never by
parserstate.py itself) are not part of the embedding.  The parent chain
forms the singly-linked scope stack. -/
inductive State where
  | mk (parent : Option State) (data : StateData)

/-- The `parent` attribute. -/
def State.parent : State → Option State
  | .mk p _ => p

/-- The variant payload of a state. -/
def State.data : State → StateData
  | .mk _ d => d

/-- The current access level of a class block state (`none` on the other
variants, which have no `access` attribute). -/
def State.access : State → Option String
  | .mk _ (.classBlock _ a _ _) => some a
  | _ => none

/-- `State.__init__` (parserstate.py lines 52-53): stores the given parent
unmodified; no other effect. -/
def State.init (parent : Option State) : State :=
  State.mk parent StateData.base

/-- `ExternBlockState.__init__`: calls `super().__init__(parent)` and stores
the linkage string. -/
def ExternBlockState.init (parent : Option State) (linkage : String) : State :=
  State.mk parent (StateData.externBlock linkage)

/-- `NamespaceBlockState.__init__`: calls `super().__init__(parent)` and
stores the namespace declaration. -/
def NamespaceBlockState.init (parent : Option State) (ns : NamespaceDecl) :
    State :=
  State.mk parent (StateData.namespaceBlock ns)

/-- `ClassBlockState.__init__`: calls `super().__init__(parent)` and stores
the class declaration, access level, typedef flag and modifier
classification. -/
def ClassBlockState.init (parent : Option State) (class_decl : ClassDecl)
    (access : String) (typedef : Bool) (mods : ParsedTypeModifiers) : State :=
  State.mk parent (StateData.classBlock class_decl access typedef mods)

/-- A notification delivered to the external `CxxVisitor` event consumer
(the visitor module is not under `src/`; per the spec it exposes one
notification per closing scope variant, each receiving the closing state
itself). -/
inductive VisitorEvent where
  | on_extern_block_end (s : State)
  | on_namespace_end (s : State)
  | on_class_end (s : State)

/-- `_finish` (parserstate.py): the notifications a state delivers to the
visitor when its scope closes.  The base `State._finish` is `pass`
(no notification); `ExternBlockState._finish` calls
`visitor.on_extern_block_end(self)`; `NamespaceBlockState._finish` calls
`visitor.on_namespace_end(self)`; `ClassBlockState._finish` calls
`visitor.on_class_end(self)`.  The visitor side effect is embedded as the
list of delivered notifications; no variant touches the state itself. -/
def State._finish : State → List VisitorEvent
  | .mk _ StateData.base => []
  | .mk p (StateData.externBlock l) =>
      [VisitorEvent.on_extern_block_end (State.mk p (StateData.externBlock l))]
  | .mk p (StateData.namespaceBlock n) =>
      [VisitorEvent.on_namespace_end (State.mk p (StateData.namespaceBlock n))]
  | .mk p (StateData.classBlock cd a td m) =>
      [VisitorEvent.on_class_end (State.mk p (StateData.classBlock cd a td m))]

/-- Modelled from the spec: the grammar's pop loop (in the parser module,
not under `src/`): on each closing token it invokes `_finish` on the top
state and resumes on its parent; `popAll` pops the whole stack this way,
collecting the notifications in delivery order. -/
def popAll : State → List VisitorEvent
  | .mk none d => (State.mk none d)._finish
  | .mk (some p) d => (State.mk (some p) d)._finish ++ popAll p

/-- `ClassBlockState._set_access` (parserstate.py lines 118-119): replaces
the `access` attribute with the argument.  The method exists only on class
block states; the embedding leaves the other variants unchanged (the
source never calls it on them). -/
def ClassBlockState._set_access (s : State) (access : String) : State :=
  match s with
  | .mk p (StateData.classBlock cd _ td m) =>
      State.mk p (StateData.classBlock cd access td m)
  | s => s

example :
    popAll (ClassBlockState.init
        (some (NamespaceBlockState.init none ⟨["n"]⟩)) ⟨"C"⟩ "public" false
        ⟨[], [], []⟩) =
      [VisitorEvent.on_class_end (ClassBlockState.init
          (some (NamespaceBlockState.init none ⟨["n"]⟩)) ⟨"C"⟩ "public" false
          ⟨[], [], []⟩),
        VisitorEvent.on_namespace_end (NamespaceBlockState.init none ⟨["n"]⟩)] :=
  rfl

/-- Whether `needle` occurs as a contiguous substring of `hay`, stated on
the underlying character lists. -/
def strContains (hay needle : String) : Prop :=
  needle.toList <:+: hay.toList

theorem errMsg_contains (msg : String) (tok : LexToken) :
    strContains (errMsg msg tok) msg ∧ strContains (errMsg msg tok) tok.value := by
  constructor
  · exact ⟨[], (": unexpected \x27" ++ tok.value ++ "\x27").toList, by
      simp [errMsg, String.toList, String.data_append]⟩
  · exact ⟨(msg ++ ": unexpected \x27").toList, ("\x27" : String).toList, by
      simp [errMsg, String.toList, String.data_append]⟩

/-- C1: `validate` fails exactly when one of the three guarded checks is
triggered: `var_ok` false with `vars` non-empty, `meth_ok` false with
`meths` non-empty, or both flags false with `both` non-empty; in every
other case it returns successfully with the receiver unchanged (no side
effects). -/
theorem validate_fails_iff (m : ParsedTypeModifiers) (var_ok meth_ok : Bool)
    (msg : String) :
    ((∃ e, (m.validate var_ok meth_ok msg).1 = Except.error e) ↔
      ((var_ok = false ∧ m.vars ≠ []) ∨ (meth_ok = false ∧ m.meths ≠ []) ∨
        (var_ok = false ∧ meth_ok = false ∧ m.both ≠ []))) ∧
    (¬((var_ok = false ∧ m.vars ≠ []) ∨ (meth_ok = false ∧ m.meths ≠ []) ∨
        (var_ok = false ∧ meth_ok = false ∧ m.both ≠ [])) →
      m.validate var_ok meth_ok msg = (Except.ok (), m)) := by
  obtain ⟨vs, bs, ms⟩ := m
  cases var_ok <;> cases meth_ok <;> cases vs <;> cases ms <;> cases bs <;>
    simp [ParsedTypeModifiers.validate]

theorem validate_fails_iff_witness :
    ((∃ e, ((ParsedTypeModifiers.mk [] [] []).validate true true "x").1 =
        Except.error e) ↔
      (((true : Bool) = false ∧ ([] : List (String × LexToken)) ≠ []) ∨
        ((true : Bool) = false ∧ ([] : List (String × LexToken)) ≠ []) ∨
        ((true : Bool) = false ∧ (true : Bool) = false ∧
          ([] : List (String × LexToken)) ≠ []))) ∧
    (ParsedTypeModifiers.mk [] [] []).validate true true "x" =
      (Except.ok (), ParsedTypeModifiers.mk [] [] []) :=
  ⟨(validate_fails_iff ⟨[], [], []⟩ true true "x").1,
    (validate_fails_iff ⟨[], [], []⟩ true true "x").2 (by simp)⟩

theorem validate_error_shape (vs bs ms : List (String × LexToken))
    (var_ok meth_ok : Bool) (msg : String) (e : CxxParseError)
    (h : ((ParsedTypeModifiers.mk vs bs ms).validate var_ok meth_ok msg).1 =
      Except.error e) :
    ∃ kw tok, ((kw, tok) ∈ vs ∨ (kw, tok) ∈ ms ∨ (kw, tok) ∈ bs) ∧
      e = CxxParseError.mk (errMsg msg tok) := by
  cases var_ok <;> cases meth_ok <;>
    rcases vs with _ | ⟨⟨kv, tv⟩, vrest⟩ <;>
    rcases ms with _ | ⟨⟨km, tm⟩, mrest⟩ <;>
    rcases bs with _ | ⟨⟨kb, tb⟩, brest⟩ <;>
    simp_all [ParsedTypeModifiers.validate] <;>
    subst h <;>
    first
      | exact ⟨kv, tv, by simp, rfl⟩
      | exact ⟨km, tm, by simp, rfl⟩
      | exact ⟨kb, tb, by simp, rfl⟩

/-- C2: every failing call of `validate` produces an error whose message
contains the supplied context message and the spelling of an offending
token from one of the three mappings; in particular with
`vars = [("mutable", tok)]` where `tok` spells `"mutable"`,
`validate false true "ctx"` fails with a message containing both `"ctx"`
and `"mutable"`. -/
theorem validate_error_message :
    (∀ (m : ParsedTypeModifiers) (var_ok meth_ok : Bool) (msg : String)
        (e : CxxParseError),
      (m.validate var_ok meth_ok msg).1 = Except.error e →
      strContains e.msg msg ∧
        ∃ kw tok,
          ((kw, tok) ∈ m.vars ∨ (kw, tok) ∈ m.meths ∨ (kw, tok) ∈ m.both) ∧
            strContains e.msg tok.value) ∧
    (∀ tok : LexToken, tok.value = "mutable" →
      ∃ e, ((ParsedTypeModifiers.mk [("mutable", tok)] [] []).validate false
          true "ctx").1 = Except.error e ∧
        strContains e.msg "ctx" ∧ strContains e.msg "mutable") := by
  constructor
  · rintro ⟨vs, bs, ms⟩ var_ok meth_ok msg e h
    obtain ⟨kw, tok, hmem, he⟩ :=
      validate_error_shape vs bs ms var_ok meth_ok msg e h
    subst he
    exact ⟨(errMsg_contains msg tok).1,
      kw, tok, hmem, (errMsg_contains msg tok).2⟩
  · intro tok hval
    refine ⟨⟨errMsg "ctx" tok⟩, rfl, (errMsg_contains "ctx" tok).1, ?_⟩
    have := (errMsg_contains "ctx" tok).2
    rwa [hval] at this

theorem validate_error_message_witness :
    ∃ e, ((ParsedTypeModifiers.mk
        [("mutable", LexToken.mk "mutable" (Location.mk "f.h" 3))] []
        []).validate false true "ctx").1 = Except.error e ∧
      strContains e.msg "ctx" ∧ strContains e.msg "mutable" :=
  validate_error_message.2 (LexToken.mk "mutable" (Location.mk "f.h" 3)) rfl

/-- C5: when the triggering mapping has several entries, `validate` reports
the token of the first entry in insertion (iteration) order — shown for
each of the three mappings in a situation where it is the triggering one —
and the reported message is deterministic: identical classifications and
arguments yield identical results. -/
theorem validate_reports_first_inserted (msg kw : String) (tok : LexToken)
    (rest : List (String × LexToken)) :
    (∀ (bs ms : List (String × LexToken)) (meth_ok : Bool),
      ((ParsedTypeModifiers.mk ((kw, tok) :: rest) bs ms).validate false
          meth_ok msg).1 = Except.error ⟨errMsg msg tok⟩) ∧
    (∀ (vs bs : List (String × LexToken)),
      ((ParsedTypeModifiers.mk vs bs ((kw, tok) :: rest)).validate true false
          msg).1 = Except.error ⟨errMsg msg tok⟩) ∧
    (((ParsedTypeModifiers.mk [] ((kw, tok) :: rest) []).validate false false
        msg).1 = Except.error ⟨errMsg msg tok⟩) ∧
    (∀ (m₁ m₂ : ParsedTypeModifiers) (v₁ v₂ k₁ k₂ : Bool) (s₁ s₂ : String),
      m₁ = m₂ → v₁ = v₂ → k₁ = k₂ → s₁ = s₂ →
      m₁.validate v₁ k₁ s₁ = m₂.validate v₂ k₂ s₂) := by
  refine ⟨fun _bs _ms _meth_ok => rfl, fun vs _bs => ?_, rfl,
    fun m₁ m₂ v₁ v₂ k₁ k₂ s₁ s₂ hm hv hk hs => by rw [hm, hv, hk, hs]⟩
  cases vs <;> simp [ParsedTypeModifiers.validate]

theorem validate_reports_first_inserted_witness :
    ((ParsedTypeModifiers.mk
        [("mutable", LexToken.mk "mutable" (Location.mk "f.h" 3)),
          ("register", LexToken.mk "register" (Location.mk "f.h" 4))] []
        []).validate false true "ctx").1 =
      Except.error
        ⟨errMsg "ctx" (LexToken.mk "mutable" (Location.mk "f.h" 3))⟩ ∧
    (ParsedTypeModifiers.mk [] [] []).validate true true "x" =
      (ParsedTypeModifiers.mk [] [] []).validate true true "x" :=
  ⟨(validate_reports_first_inserted "ctx" "mutable"
      (LexToken.mk "mutable" (Location.mk "f.h" 3))
      [("register", LexToken.mk "register" (Location.mk "f.h" 4))]).1 [] []
      true,
    (validate_reports_first_inserted "x" "a"
      (LexToken.mk "a" (Location.mk "f.h" 1)) []).2.2.2
      ⟨[], [], []⟩ ⟨[], [], []⟩ true true true true "x" "x" rfl rfl rfl rfl⟩

/-- C9: with both flags false and several partitions in violation, the
reported token comes from the highest-priority violated partition in the
fixed order `vars`, then `meths`, then `both`: a non-empty `vars` wins
over anything in `meths` and `both`; with `vars` empty a non-empty `meths`
wins over `both`; `both` is reported only when `vars` and `meths` are both
empty. -/
theorem validate_partition_priority (msg kw : String) (tok : LexToken)
    (rest : List (String × LexToken)) :
    (∀ (bs ms : List (String × LexToken)),
      ((ParsedTypeModifiers.mk ((kw, tok) :: rest) bs ms).validate false false
          msg).1 = Except.error ⟨errMsg msg tok⟩) ∧
    (∀ (bs : List (String × LexToken)),
      ((ParsedTypeModifiers.mk [] bs ((kw, tok) :: rest)).validate false false
          msg).1 = Except.error ⟨errMsg msg tok⟩) ∧
    (((ParsedTypeModifiers.mk [] ((kw, tok) :: rest) []).validate false false
        msg).1 = Except.error ⟨errMsg msg tok⟩) :=
  ⟨fun _bs _ms => rfl, fun _bs => rfl, rfl⟩

/-- C10: `validate` never changes the classification record: whether it
succeeds or fails, the returned record — and with it `vars`, `both` and
`meths` — is exactly the receiver. -/
theorem validate_preserves_modifiers (m : ParsedTypeModifiers)
    (var_ok meth_ok : Bool) (msg : String) :
    (m.validate var_ok meth_ok msg).2 = m := by
  obtain ⟨vs, bs, ms⟩ := m
  cases var_ok <;> cases meth_ok <;> cases vs <;> cases ms <;> cases bs <;>
    simp [ParsedTypeModifiers.validate]

/-- C3: close-hook notifications are delivered in strict LIFO order: popping
a state delivers its own notifications before everything delivered for its
parent chain; in particular for a namespace state `A` with a class state
`B` nested inside it, popping `B` then `A` yields `on_class_end B` followed
by `on_namespace_end A`, never the reverse. -/
theorem close_hooks_lifo :
    (∀ (s p : State), s.parent = some p →
      popAll s = s._finish ++ popAll p) ∧
    (∀ (n : NamespaceDecl) (cd : ClassDecl) (acc : String) (td : Bool)
        (m : ParsedTypeModifiers),
      popAll (ClassBlockState.init (some (NamespaceBlockState.init none n)) cd
          acc td m) =
        [VisitorEvent.on_class_end
            (ClassBlockState.init (some (NamespaceBlockState.init none n)) cd
              acc td m),
          VisitorEvent.on_namespace_end (NamespaceBlockState.init none n)]) := by
  constructor
  · rintro ⟨q, d⟩ p hp
    simp only [State.parent] at hp
    subst hp
    rfl
  · intro n cd acc td m
    rfl

theorem close_hooks_lifo_witness :
    popAll (ClassBlockState.init
        (some (NamespaceBlockState.init none (NamespaceDecl.mk ["n"])))
        (ClassDecl.mk "C") "public" false (ParsedTypeModifiers.mk [] [] [])) =
      (ClassBlockState.init
        (some (NamespaceBlockState.init none (NamespaceDecl.mk ["n"])))
        (ClassDecl.mk "C") "public" false
        (ParsedTypeModifiers.mk [] [] []))._finish ++
        popAll (NamespaceBlockState.init none (NamespaceDecl.mk ["n"])) :=
  close_hooks_lifo.1
    (ClassBlockState.init
      (some (NamespaceBlockState.init none (NamespaceDecl.mk ["n"])))
      (ClassDecl.mk "C") "public" false (ParsedTypeModifiers.mk [] [] []))
    (NamespaceBlockState.init none (NamespaceDecl.mk ["n"])) rfl

/-- C4: `_finish` on each concrete scope-state variant delivers exactly one
notification, to the consumer method matching the variant, passing the
state itself — and nothing else; the notification list has exactly that
single element. -/
theorem finish_single_notification (p : Option State) (l : String)
    (n : NamespaceDecl) (cd : ClassDecl) (acc : String) (td : Bool)
    (m : ParsedTypeModifiers) :
    (ExternBlockState.init p l)._finish =
      [VisitorEvent.on_extern_block_end (ExternBlockState.init p l)] ∧
    (NamespaceBlockState.init p n)._finish =
      [VisitorEvent.on_namespace_end (NamespaceBlockState.init p n)] ∧
    (ClassBlockState.init p cd acc td m)._finish =
      [VisitorEvent.on_class_end (ClassBlockState.init p cd acc td m)] :=
  ⟨rfl, rfl, rfl⟩

/-- C6: `_set_access` replaces the access level and nothing else: setting
access to "private" and then to "public" on a class block state yields the
state with access "public" and the parent, class declaration, typedef flag
and modifiers exactly as constructed; the stored parent state (and with it
every state of the surrounding stack) is untouched. -/
theorem set_access_replaces_only_access (p : Option State) (cd : ClassDecl)
    (acc : String) (td : Bool) (m : ParsedTypeModifiers) :
    ClassBlockState._set_access
        (ClassBlockState._set_access (ClassBlockState.init p cd acc td m)
          "private") "public" =
      ClassBlockState.init p cd "public" td m ∧
    (ClassBlockState._set_access
        (ClassBlockState._set_access (ClassBlockState.init p cd acc td m)
          "private") "public").access = some "public" ∧
    (ClassBlockState._set_access
        (ClassBlockState._set_access (ClassBlockState.init p cd acc td m)
          "private") "public").parent = p :=
  ⟨rfl, rfl, rfl⟩

/-- C7: every constructor stores the given parent unmodified — the stored
parent is exactly the argument, for each of the four state variants, and a
state constructed with no parent has an absent parent. -/
theorem construction_stores_parent (p : Option State) (l : String)
    (n : NamespaceDecl) (cd : ClassDecl) (acc : String) (td : Bool)
    (m : ParsedTypeModifiers) :
    (State.init p).parent = p ∧
    (ExternBlockState.init p l).parent = p ∧
    (NamespaceBlockState.init p n).parent = p ∧
    (ClassBlockState.init p cd acc td m).parent = p ∧
    (State.init none).parent = none :=
  ⟨rfl, rfl, rfl, rfl, rfl⟩

/-- C8: the base `State._finish` is a no-op: a state built by the base
constructor delivers no notification at all when finished. -/
theorem base_finish_noop (p : Option State) :
    (State.init p)._finish = [] :=
  rfl
